import Mathlib

/-!
Shallow embedding of the template-driven PPTX deck-assembly engine
(`src/ppt_builder.py`) and of the slide-plan normalization tail of
`src/llm_providers.py` (`plan_slides_via_llm`, lines 179-188), together
with proofs settling the behavioural claims about them.

Modelling conventions:
* Python strings are Lean `String`s; `s[:n]` is `strTake s n` (first `n`
  code points), `len(s)` is `String.length`.
* `str.lower()` is modelled by ASCII lowering (`lowerChar`), which agrees
  with Python on all the ASCII layout names and patterns involved.
* Python dict fields that may be absent or `None` are `Option` fields
  (`none` = key absent or value `None`; Python's `x or d` maps both to the
  default, which `Option.getD` mirrors).
* `python-pptx` objects are modelled structurally: a layout is its display
  name plus its placeholder list; a text frame is a list of paragraphs of
  runs; `Pt(20)`/`Pt(16)` are the numbers 20/16.
* `random.shuffle` is an arbitrary function parameter; theorems that need
  it assume only that it permutes its input.
* All Lean functions are total: the "no exception" parts of the claims are
  captured by the embedding returning plain values, and the exception
  behaviour of `build_presentation` is modelled separately by an
  `Except`-valued variant with injectable failure points.
-/

namespace PptBuilder

/-- ASCII lowering of one character; models Python `str.lower()` on the
ASCII-only layout names and patterns used by `ppt_builder.py`. -/
def lowerChar (c : Char) : Char :=
  if 65 ≤ c.toNat ∧ c.toNat ≤ 90 then Char.ofNat (c.toNat + 32) else c

/-- The lowered character sequence of a string. -/
def lowerStr (s : String) : List Char := s.data.map lowerChar

/-- Substring test on character lists; models Python `pat in s`. -/
def containsSub (pat : List Char) (s : List Char) : Bool :=
  match s with
  | [] => pat.isEmpty
  | _ :: rest => pat.isPrefixOf s || containsSub pat rest

/-- Case-insensitive substring test; models `name.lower() in lname.lower()`
from `_find_layout_index` (src/ppt_builder.py lines 47, 59). -/
def containsCI (pat s : String) : Bool :=
  containsSub (lowerStr pat) (lowerStr s)

/-- Python `s[:n]`: the first `n` code points of `s`. -/
def strTake (s : String) (n : Nat) : String := ⟨s.data.take n⟩

/-- First index in a list satisfying a predicate; models the Python
pattern `for i, x in enumerate(xs): if p(x): return i`. -/
def findFirst (p : α → Bool) : List α → Option Nat
  | [] => none
  | a :: t => if p a then some 0 else (findFirst p t).map (· + 1)

theorem findFirst_cons_pos {p : α → Bool} {a : α} {t : List α}
    (h : p a = true) : findFirst p (a :: t) = some 0 := by
  simp [findFirst, h]

theorem findFirst_cons_neg {p : α → Bool} {a : α} {t : List α}
    (h : p a = false) : findFirst p (a :: t) = (findFirst p t).map (· + 1) := by
  simp [findFirst, h]

theorem findFirst_eq_none_iff {p : α → Bool} {l : List α} :
    findFirst p l = none ↔ ∀ x ∈ l, p x = false := by
  induction l with
  | nil => simp [findFirst]
  | cons a t ih =>
    by_cases h : p a = true
    · rw [findFirst_cons_pos h]
      simp [h]
    · simp only [Bool.not_eq_true] at h
      rw [findFirst_cons_neg h]
      simp [h, ih]

theorem findFirst_eq_some_iff {p : α → Bool} {l : List α} {i : Nat} :
    findFirst p l = some i ↔
      (∃ x, l.get? i = some x ∧ p x = true) ∧
        ∀ j y, j < i → l.get? j = some y → p y = false := by
  induction l generalizing i with
  | nil => simp [findFirst]
  | cons a t ih =>
    by_cases h : p a = true
    · rw [findFirst_cons_pos h]
      constructor
      · rintro h0
        cases h0
        exact ⟨⟨a, rfl, h⟩, fun j y hj => by omega⟩
      · rintro ⟨⟨x, hx, hpx⟩, hmin⟩
        cases i with
        | zero => rfl
        | succ n =>
          exact absurd (hmin 0 a (Nat.succ_pos n) rfl) (by simp [h])
    · simp only [Bool.not_eq_true] at h
      rw [findFirst_cons_neg h]
      cases i with
      | zero =>
        constructor
        · intro hc
          cases hfd : findFirst p t with
          | none => rw [hfd] at hc; cases hc
          | some m => rw [hfd] at hc; simp at hc
        · rintro ⟨⟨x, hx, hpx⟩, _⟩
          simp only [List.get?] at hx
          cases hx
          rw [h] at hpx
          cases hpx
      | succ n =>
        constructor
        · intro hc
          have hsome : findFirst p t = some n := by
            cases hfd : findFirst p t with
            | none => rw [hfd] at hc; cases hc
            | some m =>
              rw [hfd] at hc
              have hm : m = n := by simpa using hc
              rw [hm]
          rcases (ih.mp hsome) with ⟨⟨x, hx, hpx⟩, hmin⟩
          refine ⟨⟨x, hx, hpx⟩, ?_⟩
          intro j y hj hy
          cases j with
          | zero => simp only [List.get?] at hy; cases hy; exact h
          | succ m => exact hmin m y (by omega) hy
        · rintro ⟨⟨x, hx, hpx⟩, hmin⟩
          have hsome : findFirst p t = some n := by
            refine ih.mpr ⟨⟨x, hx, hpx⟩, ?_⟩
            intro j y hj hy
            exact hmin (j + 1) y (by omega) hy
          rw [hsome]
          rfl

theorem findFirst_isSome_of_mem {p : α → Bool} {l : List α} {x : α}
    (hx : x ∈ l) (hpx : p x = true) : (findFirst p l).isSome := by
  cases hfd : findFirst p l with
  | none => exact absurd (findFirst_eq_none_iff.mp hfd x hx) (by simp [hpx])
  | some i => rfl

theorem findFirst_lt_length {p : α → Bool} {l : List α} {i : Nat}
    (h : findFirst p l = some i) : i < l.length := by
  rcases (findFirst_eq_some_iff.mp h) with ⟨⟨x, hx, _⟩, _⟩
  exact List.get?_eq_some.mp hx |>.1

/-! Section: Placeholder and layout model (src/ppt_builder.py lines 22-24, 26-37) -/

/-- `pptx` placeholder kinds relevant to `ppt_builder.py`. -/
inductive PhType where
  | title
  | centerTitle
  | subtitle
  | body
  | object
  | picture
  | slideImage
  | otherPh
deriving DecidableEq

/-- `TITLE_TYPES = {TITLE, CENTER_TITLE, SUBTITLE}` (line 22). -/
def TITLE_TYPES : List PhType := [.title, .centerTitle, .subtitle]

/-- `CONTENT_TYPES = {BODY, OBJECT}` (line 23). -/
def CONTENT_TYPES : List PhType := [.body, .object]

/-- `PICTURE_TYPES = {PICTURE, SLIDE_IMAGE}` (line 24). -/
def PICTURE_TYPES : List PhType := [.picture, .slideImage]

/-- One placeholder of a layout (or of a slide cloned from it):
its `placeholder_format.type` and whether it has a usable `text_frame`. -/
structure LayoutPh where
  phType : PhType
  hasTextFrame : Bool
deriving DecidableEq

/-- One slide layout: its display name (`getattr(layout, "name", "") or ""`)
and its placeholders. -/
structure Layout where
  name : String
  placeholders : List LayoutPh
deriving DecidableEq

/-- `_layout_has_body` (lines 26-37): true if some placeholder is of a
content kind, or is a non-title placeholder with a text frame. -/
def layout_has_body (l : Layout) : Bool :=
  l.placeholders.any fun ph =>
    CONTENT_TYPES.contains ph.phType ||
      (!(TITLE_TYPES.contains ph.phType) && ph.hasTextFrame)

/-- `_first_placeholder` (lines 86-94), on the placeholder list of a slide:
the first placeholder whose type is in `allowed`. -/
def first_placeholder (phs : List LayoutPh) (allowed : List PhType) :
    Option LayoutPh :=
  phs.find? fun ph => allowed.contains ph.phType

/-- `_first_text_capable_non_title` (lines 96-107): the first non-title
placeholder that has a text frame. -/
def first_text_capable_non_title (phs : List LayoutPh) : Option LayoutPh :=
  phs.find? fun ph => !(TITLE_TYPES.contains ph.phType) && ph.hasTextFrame

/-! Section: Layout-hint resolution (src/ppt_builder.py lines 9-20, 39-63) -/

/-- `LAYOUT_PREFS` (lines 9-20): hint → ordered display-name patterns. -/
def LAYOUT_PREFS : List (String × List String) :=
  [ ("title_and_content", ["Title and Content", "Content with Caption",
                           "Title and Content (2)", "Title and Content 2"]),
    ("title_only",        ["Title Only", "Blank Title", "Title"]),
    ("section_header",    ["Section Header", "Section Title", "Title Slide"]),
    ("two_content",       ["Two Content", "Two Content and Title", "Comparison"]),
    ("quote",             ["Quote", "Title Only"]),
    ("comparison",        ["Comparison", "Two Content"]),
    ("timeline",          ["Title and Content", "Two Content"]),
    ("process",           ["Title and Content", "Two Content"]),
    ("overview",          ["Title and Content", "Title Only"]),
    ("summary",           ["Title and Content", "Title Only"]) ]

/-- Line 41: `next((p[1] for p in LAYOUT_PREFS if p[0] == layout_hint), None)
or ["Title and Content", "Title Only"]` — the hint's pattern list, or the
generic default when the hint is unknown (or its list were empty). -/
def prefsFor (hint : String) : List String :=
  match (LAYOUT_PREFS.find? fun p => p.1 == hint).map Prod.snd with
  | none => ["Title and Content", "Title Only"]
  | some [] => ["Title and Content", "Title Only"]
  | some (n :: ns) => n :: ns

/-- The inner loop of lines 43-50: index of the first layout whose display
name contains `pat` case-insensitively. -/
def firstNameMatch (layouts : List Layout) (pat : String) : Option Nat :=
  findFirst (fun l => containsCI pat l.name) layouts

/-- The outer loop of lines 43-50: try each pattern in preference order. -/
def firstPrefMatch (layouts : List Layout) : List String → Option Nat
  | [] => none
  | pat :: rest =>
    match firstNameMatch layouts pat with
    | some i => some i
    | none => firstPrefMatch layouts rest

/-- `_find_layout_index` (lines 39-63): name-pattern tier, then body tier,
then "title" tier, then index 0. -/
def find_layout_index (layouts : List Layout) (hint : String) : Nat :=
  match firstPrefMatch layouts (prefsFor hint) with
  | some i => i
  | none =>
    match findFirst layout_has_body layouts with
    | some i => i
    | none =>
      match findFirst (fun l => containsCI "title" l.name) layouts with
      | some i => i
      | none => 0

theorem firstPrefMatch_eq_none_iff {layouts : List Layout} {pats : List String} :
    firstPrefMatch layouts pats = none ↔
      ∀ pat ∈ pats, firstNameMatch layouts pat = none := by
  induction pats with
  | nil => simp [firstPrefMatch]
  | cons pat rest ih =>
    cases hfd : firstNameMatch layouts pat with
    | some i => simp [firstPrefMatch, hfd]
    | none => simp [firstPrefMatch, hfd, ih]

theorem firstPrefMatch_eq_some {layouts : List Layout} {pats : List String}
    {j : Nat} {pat : String} {i : Nat}
    (hj : pats.get? j = some pat)
    (hearlier : ∀ j' pat', j' < j → pats.get? j' = some pat' →
      firstNameMatch layouts pat' = none)
    (hmatch : firstNameMatch layouts pat = some i) :
    firstPrefMatch layouts pats = some i := by
  induction pats generalizing j with
  | nil => cases hj
  | cons q rest ih =>
    cases j with
    | zero =>
      simp only [List.get?] at hj
      cases hj
      simp [firstPrefMatch, hmatch]
    | succ m =>
      have hq : firstNameMatch layouts q = none :=
        hearlier 0 q (Nat.succ_pos m) rfl
      simp only [firstPrefMatch, hq]
      exact ih hj (fun j' pat' hlt hget =>
        hearlier (j' + 1) pat' (by omega) hget)

theorem firstPrefMatch_some_exists {layouts : List Layout}
    {pats : List String} {i : Nat} (h : firstPrefMatch layouts pats = some i) :
    ∃ pat ∈ pats, firstNameMatch layouts pat = some i := by
  induction pats with
  | nil => cases h
  | cons q rest ih =>
    simp only [firstPrefMatch] at h
    cases h2 : firstNameMatch layouts q with
    | some m =>
      rw [h2] at h
      cases h
      exact ⟨q, List.mem_cons_self q rest, h2⟩
    | none =>
      rw [h2] at h
      rcases ih h with ⟨pat, hmem, hmat⟩
      exact ⟨pat, List.mem_cons_of_mem q hmem, hmat⟩

theorem find_layout_index_lt_length {layouts : List Layout} {hint : String}
    (h : layouts ≠ []) : find_layout_index layouts hint < layouts.length := by
  have hlen : 0 < layouts.length := List.length_pos.mpr h
  unfold find_layout_index
  cases h1 : firstPrefMatch layouts (prefsFor hint) with
  | some i =>
    rcases firstPrefMatch_some_exists h1 with ⟨pat, _, hmat⟩
    exact findFirst_lt_length hmat
  | none =>
    cases h2 : findFirst layout_has_body layouts with
    | some i => exact findFirst_lt_length h2
    | none =>
      cases h3 : findFirst (fun l => containsCI "title" l.name) layouts with
      | some i => exact findFirst_lt_length h3
      | none => exact hlen

/-! Section: Text frames and the writer helpers (src/ppt_builder.py lines 109-155) -/

/-- One text run: its text and an explicitly set font size in points
(`none` = inherit the template/theme size). -/
structure Run where
  text : String
  fontSizePt : Option Nat
deriving DecidableEq

/-- One paragraph: its runs and its indentation level. -/
structure Paragraph where
  runs : List Run
  level : Nat
deriving DecidableEq

/-- A text frame: paragraphs plus the `word_wrap` tri-state
(`none` = inherit). -/
structure TextFrame where
  paragraphs : List Paragraph
  wordWrap : Option Bool
deriving DecidableEq

/-- A paragraph with no runs at level 0, as left behind by `tf.clear()`. -/
def emptyParagraph : Paragraph := ⟨[], 0⟩

/-- `tf.clear()`: drop every paragraph and run, leaving one empty
paragraph; `word_wrap` is untouched. -/
def TextFrame.clear (tf : TextFrame) : TextFrame :=
  { tf with paragraphs := [emptyParagraph] }

/-- A default-initialized text frame (fresh placeholder or textbox). -/
def emptyFrame : TextFrame := ⟨[emptyParagraph], none⟩

/-- `_set_text` (lines 109-124): clear the frame, add one run carrying the
text to the first paragraph, and shrink the run to 20 pt only when the text
is longer than 90 characters. -/
def set_text (tf : TextFrame) (text : String) : TextFrame :=
  let cleared := tf.clear
  let run : Run := ⟨text, if text.length > 90 then some 20 else none⟩
  { cleared with paragraphs := [⟨[run], 0⟩] }

/-- The paragraph written for one bullet by the loop body of `_set_bullets`
(lines 134-141): one run carrying the bullet, level 0, shrunk to 16 pt only
when the bullet is longer than 100 characters. -/
def bulletParagraph (b : String) : Paragraph :=
  ⟨[⟨b, if b.length > 100 then some 16 else none⟩], 0⟩

/-- `_set_bullets` (lines 126-144): clear the frame, write the first 12
bullets one paragraph each (the first reusing the cleared paragraph, so an
empty bullet list leaves the single empty paragraph), then enable
`word_wrap`. -/
def set_bullets (tf : TextFrame) (bullets : List String) : TextFrame :=
  let bs := bullets.take 12
  let cleared := tf.clear
  let paras := bs.map bulletParagraph
  { paragraphs := if paras.isEmpty then cleared.paragraphs else paras,
    wordWrap := some true }

/-! Section: Image harvest and slide purge (src/ppt_builder.py lines 65-84) -/

/-- A harvested template image: `(shape.image.blob, shape.width,
shape.height)`; the blob is an opaque token. -/
structure HarvestedImage where
  blob : Nat
  width : Nat
  height : Nat
deriving DecidableEq

/-- A shape on a pre-existing template slide. A `pic` is a shape with
`shape_type == MSO_SHAPE_TYPE.PICTURE` (every `python-pptx` picture also
has the `.image` attribute tested on line 71). -/
inductive Shape where
  | pic (img : HarvestedImage)
  | otherShape
deriving DecidableEq

/-- The data collected from one shape by lines 71-72. -/
def pictureData : Shape → Option HarvestedImage
  | .pic img => some img
  | .otherShape => none

/-- Whether a shape is a picture shape. -/
def isPictureShape : Shape → Bool
  | .pic _ => true
  | .otherShape => false

/-- A pre-existing slide of the uploaded template: its relationship id in
the document and its shapes. -/
structure TemplateSlide where
  rId : Nat
  shapes : List Shape
deriving DecidableEq

/-- The uploaded presentation document: pre-existing slides, layouts, and
opaque masters/theme tokens, plus the part's relationship list. -/
structure Document where
  slides : List TemplateSlide
  layouts : List Layout
  masters : Nat
  theme : Nat
  rels : List Nat
deriving DecidableEq

/-- The collection loop of `_collect_template_images` (lines 67-74), before
the shuffle: every picture's data, slide by slide, shape by shape. -/
def collect_template_images (slides : List TemplateSlide) :
    List HarvestedImage :=
  (slides.map fun s => s.shapes.filterMap pictureData).flatten

/-- `_purge_all_existing_slides` (lines 78-84): iterate over a snapshot of
the slide-id list, dropping each slide's relationship and removing it from
the live list. -/
def purge_all_existing_slides (doc : Document) : Document :=
  doc.slides.foldl
    (fun d sld =>
      { d with rels := d.rels.erase sld.rId, slides := d.slides.erase sld })
    doc

theorem purge_foldl_slides_nil (l : List TemplateSlide) :
    ∀ d : Document, d.slides = l →
      (l.foldl
        (fun d sld =>
          { d with rels := d.rels.erase sld.rId,
                   slides := d.slides.erase sld })
        d).slides = [] := by
  induction l with
  | nil => intro d hd; simpa using hd
  | cons a t ih =>
    intro d hd
    simp only [List.foldl]
    apply ih
    simp [hd, List.erase_cons_head]

theorem purge_foldl_frame (l : List TemplateSlide) (d : Document) :
    (l.foldl
      (fun d sld =>
        { d with rels := d.rels.erase sld.rId,
                 slides := d.slides.erase sld })
      d).layouts = d.layouts ∧
    (l.foldl
      (fun d sld =>
        { d with rels := d.rels.erase sld.rId,
                 slides := d.slides.erase sld })
      d).masters = d.masters ∧
    (l.foldl
      (fun d sld =>
        { d with rels := d.rels.erase sld.rId,
                 slides := d.slides.erase sld })
      d).theme = d.theme := by
  induction l generalizing d with
  | nil => exact ⟨rfl, rfl, rfl⟩
  | cons a t ih => exact ih _

theorem purge_slides_eq_nil (doc : Document) :
    (purge_all_existing_slides doc).slides = [] :=
  purge_foldl_slides_nil doc.slides doc rfl

theorem purge_preserves_layouts (doc : Document) :
    (purge_all_existing_slides doc).layouts = doc.layouts :=
  (purge_foldl_frame doc.slides doc).1

/-! Section: The slide plan and the build loop (src/ppt_builder.py lines 175-245) -/

/-- One slide record of the plan dict. `none` models a key that is absent
or whose value is `None` (Python's `x or default` and `dict.get` treat the
two alike everywhere they are read here). -/
structure PlanEntry where
  title : Option String
  bullets : Option (List String)
  layout_hint : Option String
  notes : Option String
deriving DecidableEq

/-- One slide of the generated document. The frames are `none` on the
superseded slide left behind by the layout-upgrade path (lines 193-197),
which is never written to. -/
structure OutputSlide where
  layoutIdx : Nat
  titleFrame : Option TextFrame
  bodyFrame : Option TextFrame
  notesText : Option String
  image : Option HarvestedImage
deriving DecidableEq

/-- Lines 199-241 for the slide actually written: truncate title to 200
characters and bullets to 12, write them with `_set_text`/`_set_bullets`,
attach notes only when non-empty (`_ensure_notes`, lines 146-155), and
place the cyclically chosen template image when the pool is non-empty and
the slide is eligible (lines 232-241). -/
def render_slide (pool : List HarvestedImage) (idx : Nat) (e : PlanEntry)
    (layoutIdx : Nat) : OutputSlide :=
  let title_text := strTake (e.title.getD "") 200
  let bullets := (e.bullets.getD []).take 12
  let notesT := e.notes.getD ""
  { layoutIdx := layoutIdx,
    titleFrame := some (set_text emptyFrame title_text),
    bodyFrame := some (set_bullets emptyFrame bullets),
    notesText := if notesT = "" then none else some notesT,
    image :=
      if !pool.isEmpty && (idx % 3 == 0 || bullets.length ≤ 2) then
        pool.get? (idx % pool.length)
      else
        none }

/-- One iteration of the loop at lines 187-241: resolve the hint
(`slide_data.get("layout_hint", "title_and_content")`), create a slide from
that layout, and, when it has neither a content placeholder nor a
text-capable non-title placeholder, additionally create a slide from the
first body-capable layout and write into that one instead — the first
slide stays in the document unwritten. -/
def build_entry (layouts : List Layout) (pool : List HarvestedImage)
    (idx : Nat) (e : PlanEntry) : List OutputSlide :=
  let hint := e.layout_hint.getD "title_and_content"
  let li := find_layout_index layouts hint
  let chosen := layouts.getD li ⟨"", []⟩
  if (first_placeholder chosen.placeholders CONTENT_TYPES).isNone
      && (first_text_capable_non_title chosen.placeholders).isNone then
    match findFirst layout_has_body layouts with
    | some j => [⟨li, none, none, none, none⟩, render_slide pool idx e j]
    | none => [render_slide pool idx e li]
  else
    [render_slide pool idx e li]

/-- `for idx, slide_data in enumerate(slides_plan)` (line 187). -/
def build_slides (layouts : List Layout) (pool : List HarvestedImage) :
    Nat → List PlanEntry → List OutputSlide
  | _, [] => []
  | idx, e :: rest =>
    build_entry layouts pool idx e ++ build_slides layouts pool (idx + 1) rest

/-- The generated document. -/
structure BuiltDeck where
  layouts : List Layout
  masters : Nat
  theme : Nat
  outSlides : List OutputSlide
deriving DecidableEq

/-- `build_presentation` (lines 175-245): harvest the template images
(`random.shuffle` abstracted as the `shuffle` parameter), purge the
pre-existing slides, then build one group of slides per plan entry. -/
def build_presentation (shuffle : List HarvestedImage → List HarvestedImage)
    (doc : Document) (plan : List PlanEntry) : BuiltDeck :=
  let pool := shuffle (collect_template_images doc.slides)
  let purged := purge_all_existing_slides doc
  { layouts := purged.layouts,
    masters := purged.masters,
    theme := purged.theme,
    outSlides := build_slides purged.layouts pool 0 plan }

/-! Section: Plan normalization (src/llm_providers.py lines 179-188) -/

/-- Line 183-184: `if "notes" not in s: s["notes"] = ""`. -/
def ensure_notes_key (e : PlanEntry) : PlanEntry :=
  if e.notes = none then { e with notes := some "" } else e

/-- Lines 185-187: `if not s.get("layout_hint"):
s["layout_hint"] = "title_and_content"` — absent, `None` and `""` hints
are all falsy and get rewritten. -/
def normalize_hint (e : PlanEntry) : PlanEntry :=
  if e.layout_hint.getD "" = "" then
    { e with layout_hint := some "title_and_content" }
  else e

/-- The normalization tail of `plan_slides_via_llm` (lines 179-188), after
the provider call and JSON checks: truncate to 30 slides, default the notes
key when requested, default falsy layout hints. -/
def plan_slides_normalize (includeNotes : Bool) (slides : List PlanEntry) :
    List PlanEntry :=
  let s1 := slides.take 30
  let s2 := if includeNotes then s1.map ensure_notes_key else s1
  s2.map normalize_hint

/-- Whether the layout-upgrade path of lines 193-197 fires for an entry:
the resolved layout has no body-capable placeholder and some layout does. -/
def upgrade_triggers (layouts : List Layout) (e : PlanEntry) : Bool :=
  let li := find_layout_index layouts (e.layout_hint.getD "title_and_content")
  let chosen := layouts.getD li ⟨"", []⟩
  ((first_placeholder chosen.placeholders CONTENT_TYPES).isNone
      && (first_text_capable_non_title chosen.placeholders).isNone)
    && (findFirst layout_has_body layouts).isSome

/-! Section: Exception model of the build (src/ppt_builder.py lines 109-245)

`build_presentation` wraps every per-slide write in a `try/except pass`
inside the helpers (`_set_text`, `_set_bullets`, `_ensure_notes`,
`_fill_picture_placeholder_if_any`, and the textbox/accent fallbacks),
while `prs.slides.add_slide` (lines 190 and 196) and `prs.save` (line 244)
run outside any `try`. The variant below injects failures at exactly these
points: a failing caught write degrades that slide, a failing `add_slide`
or `save` aborts the build with the raw error. -/

/-- Injected per-slide write failures; each flag models an exception inside
the corresponding helper, caught by that helper's own `try/except`. -/
structure SlideOpFails where
  titleFail : Bool
  bulletsFail : Bool
  notesFail : Bool
  imageFail : Bool

/-- An exception escaping `build_presentation` (the code defines no wrapper
class; the raw exception propagates unmodified). -/
inductive PptxError where
  | addSlideError (idx : Nat)
  | saveError
deriving DecidableEq

/-- Failure environment for one build. -/
structure BuildEnv where
  slideFails : Nat → SlideOpFails
  addSlideFail : Nat → Bool
  saveFail : Bool

/-- `render_slide` under injected write failures: each caught failure
leaves the corresponding piece unwritten and the build moves on. -/
def render_slide_exc (f : SlideOpFails) (pool : List HarvestedImage)
    (idx : Nat) (e : PlanEntry) (layoutIdx : Nat) : OutputSlide :=
  let title_text := strTake (e.title.getD "") 200
  let bullets := (e.bullets.getD []).take 12
  let notesT := e.notes.getD ""
  { layoutIdx := layoutIdx,
    titleFrame :=
      if f.titleFail then none else some (set_text emptyFrame title_text),
    bodyFrame :=
      if f.bulletsFail then none else some (set_bullets emptyFrame bullets),
    notesText :=
      if f.notesFail then none
      else if notesT = "" then none else some notesT,
    image :=
      if f.imageFail then none
      else if !pool.isEmpty && (idx % 3 == 0 || bullets.length ≤ 2) then
        pool.get? (idx % pool.length)
      else none }

/-- The per-entry slide group under injected (caught) write failures. -/
def build_entry_fails (f : SlideOpFails) (layouts : List Layout)
    (pool : List HarvestedImage) (idx : Nat) (e : PlanEntry) :
    List OutputSlide :=
  let hint := e.layout_hint.getD "title_and_content"
  let li := find_layout_index layouts hint
  let chosen := layouts.getD li ⟨"", []⟩
  if (first_placeholder chosen.placeholders CONTENT_TYPES).isNone
      && (first_text_capable_non_title chosen.placeholders).isNone then
    match findFirst layout_has_body layouts with
    | some j => [⟨li, none, none, none, none⟩, render_slide_exc f pool idx e j]
    | none => [render_slide_exc f pool idx e li]
  else
    [render_slide_exc f pool idx e li]

/-- One loop iteration under injected failures: a failing `add_slide`
escapes as the raw exception; write failures are absorbed into the
rendered slide. -/
def build_entry_exc (env : BuildEnv) (layouts : List Layout)
    (pool : List HarvestedImage) (idx : Nat) (e : PlanEntry) :
    Except PptxError (List OutputSlide) :=
  if env.addSlideFail idx then Except.error (.addSlideError idx)
  else Except.ok (build_entry_fails (env.slideFails idx) layouts pool idx e)

/-- The build loop under injected failures; the first escaping exception
aborts the whole loop. -/
def build_slides_exc (env : BuildEnv) (layouts : List Layout)
    (pool : List HarvestedImage) :
    Nat → List PlanEntry → Except PptxError (List OutputSlide)
  | _, [] => Except.ok []
  | idx, e :: rest =>
    match build_entry_exc env layouts pool idx e with
    | Except.error err => Except.error err
    | Except.ok ss =>
      match build_slides_exc env layouts pool (idx + 1) rest with
      | Except.error err => Except.error err
      | Except.ok rest' => Except.ok (ss ++ rest')

/-- `build_presentation` under injected failures: harvest, purge, build the
slides (any escaping `add_slide` exception aborts), then serialize (a
`save` exception aborts). -/
def build_presentation_exc (env : BuildEnv)
    (shuffle : List HarvestedImage → List HarvestedImage)
    (doc : Document) (plan : List PlanEntry) : Except PptxError BuiltDeck :=
  let pool := shuffle (collect_template_images doc.slides)
  let purged := purge_all_existing_slides doc
  match build_slides_exc env purged.layouts pool 0 plan with
  | Except.error err => Except.error err
  | Except.ok ss =>
    if env.saveFail then Except.error .saveError
    else Except.ok ⟨purged.layouts, purged.masters, purged.theme, ss⟩

/-! Section: Concrete fixtures for witnesses and counterexamples -/

/-- A BODY placeholder with a text frame. -/
def bodyPh : LayoutPh := ⟨.body, true⟩

/-- A harvested image fixture. -/
def imgA : HarvestedImage := ⟨100, 914400, 685800⟩

/-- A second harvested image fixture. -/
def imgB : HarvestedImage := ⟨101, 914400, 685800⟩

/-- A template with one original slide holding two pictures and one
body-capable "Title and Content" layout. -/
def docTwoPics : Document :=
  ⟨[⟨2, [.pic imgA, .otherShape, .pic imgB]⟩],
   [⟨"Title and Content", [bodyPh]⟩], 0, 0, [2]⟩

/-- Five plan entries with no bullets (all image-eligible). -/
def planFive : List PlanEntry :=
  List.replicate 5 ⟨some "S", none, none, none⟩

/-- Layouts whose "Title Only" layout has no body while a later layout
does: resolving a `title_only` hint picks the body-less layout and the
upgrade path fires. -/
def layoutsTitleOnlyFirst : List Layout :=
  [⟨"Title Only", []⟩, ⟨"Content Stub", [bodyPh]⟩]

/-- A template document over `layoutsTitleOnlyFirst` with no slides. -/
def docTitleOnlyFirst : Document := ⟨[], layoutsTitleOnlyFirst, 0, 0, []⟩

/-- A one-entry plan requesting the `title_only` layout. -/
def planTitleOnly : List PlanEntry :=
  [⟨some "Intro", some ["a", "b", "c"], some "title_only", none⟩]

/-- Layouts on which an empty-string hint and a `title_and_content` hint
resolve to different layouts: the empty hint falls back to the generic
preference list, whose "Title Only" pattern matches layout 1, while
`title_and_content` matches no name and falls through to the body tier,
layout 0. -/
def layoutsAlpha : List Layout :=
  [⟨"Alpha", [bodyPh]⟩, ⟨"Title Only", []⟩]

/-- A plan entry whose `layout_hint` key is present but empty. -/
def entryEmptyHint : PlanEntry := ⟨some "T", none, some "", none⟩

/-- The same entry with the default hint spelled out. -/
def entryDefaultHint : PlanEntry :=
  ⟨some "T", none, some "title_and_content", none⟩

/-- A 150-character bullet. -/
def bullet150 : String := String.mk (List.replicate 150 'a')

/-- A 50-character bullet. -/
def bullet50 : String := String.mk (List.replicate 50 'a')

/-! Section: Claim theorems -/

/-- Claim C5: After `_purge_all_existing_slides` runs on any document, the
document contains zero slides, while the layouts and the masters/theme are
exactly the same as before the purge. -/
theorem c5_purge_empties_slides_and_keeps_frame (doc : Document) :
    (purge_all_existing_slides doc).slides.length = 0 ∧
    (purge_all_existing_slides doc).layouts = doc.layouts ∧
    (purge_all_existing_slides doc).masters = doc.masters ∧
    (purge_all_existing_slides doc).theme = doc.theme := by
  refine ⟨?_, purge_preserves_layouts doc,
    (purge_foldl_frame doc.slides doc).2.1,
    (purge_foldl_frame doc.slides doc).2.2⟩
  rw [purge_slides_eq_nil doc]
  rfl

/-- Claim C2: `_find_layout_index` resolves in exactly this order, first
match winning: (1) for each candidate display-name pattern of the hint in
preference order, the first layout in template order whose display name
contains that pattern case-insensitively; (2) else the first layout for
which `_layout_has_body` is true; (3) else the first layout whose display
name contains "title" case-insensitively; (4) else index 0 — and (being a
total function) it always returns an index, in range whenever the template
has any layout, so no error is ever raised to the caller. -/
theorem c2_find_layout_index_resolution_order
    (layouts : List Layout) (hint : String) :
    (∀ j pat i L, (prefsFor hint).get? j = some pat →
       (∀ j' pat', j' < j → (prefsFor hint).get? j' = some pat' →
         ∀ l ∈ layouts, containsCI pat' l.name = false) →
       layouts.get? i = some L → containsCI pat L.name = true →
       (∀ k K, k < i → layouts.get? k = some K →
         containsCI pat K.name = false) →
       find_layout_index layouts hint = i)
    ∧ ((∀ pat ∈ prefsFor hint, ∀ l ∈ layouts, containsCI pat l.name = false) →
       ∀ i L, layouts.get? i = some L → layout_has_body L = true →
         (∀ k K, k < i → layouts.get? k = some K →
           layout_has_body K = false) →
         find_layout_index layouts hint = i)
    ∧ ((∀ pat ∈ prefsFor hint, ∀ l ∈ layouts, containsCI pat l.name = false) →
       (∀ l ∈ layouts, layout_has_body l = false) →
       ∀ i L, layouts.get? i = some L → containsCI "title" L.name = true →
         (∀ k K, k < i → layouts.get? k = some K →
           containsCI "title" K.name = false) →
         find_layout_index layouts hint = i)
    ∧ ((∀ pat ∈ prefsFor hint, ∀ l ∈ layouts, containsCI pat l.name = false) →
       (∀ l ∈ layouts, layout_has_body l = false) →
       (∀ l ∈ layouts, containsCI "title" l.name = false) →
       find_layout_index layouts hint = 0)
    ∧ (layouts ≠ [] → find_layout_index layouts hint < layouts.length) := by
  refine ⟨?_, ?_, ?_, ?_, fun h => find_layout_index_lt_length h⟩
  · intro j pat i L hj hearlier hi hpat hmin
    have hnm : firstNameMatch layouts pat = some i := by
      refine findFirst_eq_some_iff.mpr ⟨⟨L, hi, hpat⟩, ?_⟩
      intro k K hk hK
      exact hmin k K hk hK
    have hpm : firstPrefMatch layouts (prefsFor hint) = some i := by
      refine firstPrefMatch_eq_some hj ?_ hnm
      intro j' pat' hlt hget
      exact findFirst_eq_none_iff.mpr (hearlier j' pat' hlt hget)
    unfold find_layout_index
    rw [hpm]
  · intro hnone i L hi hbody hmin
    have hpm : firstPrefMatch layouts (prefsFor hint) = none :=
      firstPrefMatch_eq_none_iff.mpr fun pat hpat =>
        findFirst_eq_none_iff.mpr (hnone pat hpat)
    have hfd : findFirst layout_has_body layouts = some i := by
      refine findFirst_eq_some_iff.mpr ⟨⟨L, hi, hbody⟩, ?_⟩
      intro k K hk hK
      exact hmin k K hk hK
    unfold find_layout_index
    rw [hpm, hfd]
  · intro hnone hnobody i L hi htitle hmin
    have hpm : firstPrefMatch layouts (prefsFor hint) = none :=
      firstPrefMatch_eq_none_iff.mpr fun pat hpat =>
        findFirst_eq_none_iff.mpr (hnone pat hpat)
    have hfd : findFirst layout_has_body layouts = none :=
      findFirst_eq_none_iff.mpr hnobody
    have hft : findFirst (fun l => containsCI "title" l.name) layouts
        = some i := by
      refine findFirst_eq_some_iff.mpr ⟨⟨L, hi, htitle⟩, ?_⟩
      intro k K hk hK
      exact hmin k K hk hK
    unfold find_layout_index
    rw [hpm, hfd, hft]
  · intro hnone hnobody hnotitle
    have hpm : firstPrefMatch layouts (prefsFor hint) = none :=
      firstPrefMatch_eq_none_iff.mpr fun pat hpat =>
        findFirst_eq_none_iff.mpr (hnone pat hpat)
    have hfd : findFirst layout_has_body layouts = none :=
      findFirst_eq_none_iff.mpr hnobody
    have hft : findFirst (fun l => containsCI "title" l.name) layouts
        = none := findFirst_eq_none_iff.mpr hnotitle
    unfold find_layout_index
    rw [hpm, hfd, hft]

/-- Witness for C2: on a template whose second layout is named
"Title and Content", the `title_and_content` hint's first pattern matches
it and `_find_layout_index` returns index 1. -/
theorem c2_witness :
    find_layout_index [⟨"Intro", []⟩, ⟨"Title and Content", [bodyPh]⟩]
      "title_and_content" = 1 :=
  (c2_find_layout_index_resolution_order
      [⟨"Intro", []⟩, ⟨"Title and Content", [bodyPh]⟩]
      "title_and_content").1
    0 "Title and Content" 1 ⟨"Title and Content", [bodyPh]⟩
    (by decide)
    (fun j' pat' hlt _ => absurd hlt (by omega))
    (by decide) (by decide)
    (by
      intro k K hk hK
      interval_cases k
      · cases hK
        decide)

theorem build_entry_length (layouts : List Layout)
    (pool : List HarvestedImage) (idx : Nat) (e : PlanEntry) :
    (build_entry layouts pool idx e).length
      = if upgrade_triggers layouts e then 2 else 1 := by
  simp only [build_entry, upgrade_triggers]
  split
  · next h =>
    simp only [h, Bool.true_and]
    cases hfd : findFirst layout_has_body layouts with
    | some j => simp
    | none => simp
  · next h =>
    rw [Bool.not_eq_true] at h
    simp only [h, Bool.false_and]
    rfl

theorem build_slides_length (layouts : List Layout)
    (pool : List HarvestedImage) :
    ∀ (idx : Nat) (plan : List PlanEntry),
      (build_slides layouts pool idx plan).length
        = plan.length + plan.countP (fun e => upgrade_triggers layouts e) := by
  intro idx plan
  induction plan generalizing idx with
  | nil => rfl
  | cons e rest ih =>
    simp only [build_slides, List.length_append, List.length_cons,
      List.countP_cons, build_entry_length, ih (idx + 1)]
    by_cases h : upgrade_triggers layouts e = true
    · simp [h]
      omega
    · simp only [Bool.not_eq_true] at h
      simp [h]
      omega

/-- Claim C1 counterexample: On a template whose "Title Only" layout has no
body placeholder while another layout does, a one-entry plan with hint
`title_only` yields two output slides: the body-less slide created first is
left in the document when the upgrade path creates its replacement, so the
slide count is 2 ≠ min(1, 30). -/
theorem c1_counterexample :
    (build_presentation id docTitleOnlyFirst planTitleOnly).outSlides.length
        = 2 ∧
    min planTitleOnly.length 30 = 1 ∧
    (build_presentation id docTitleOnlyFirst planTitleOnly).outSlides.length
        ≠ min planTitleOnly.length 30 := by
  refine ⟨by decide, by decide, by decide⟩

/-- Claim C1 amended: `build_presentation` itself applies no 30-entry cap and
can emit two slides for one entry: for any template with at least one
layout, the number of output slides equals the plan length plus the number
of entries whose resolved layout lacks a body-capable placeholder while
some layout has one (each such entry leaves an extra unwritten slide).
The 30-entry cap is applied upstream: the normalization tail of
`plan_slides_via_llm` truncates every plan to `min(len, 30)` entries before
`build_presentation` ever sees it. -/
theorem c1_amended_slide_count
    (shuffle : List HarvestedImage → List HarvestedImage)
    (doc : Document) (plan : List PlanEntry) (_hL : doc.layouts ≠ []) :
    (build_presentation shuffle doc plan).outSlides.length
        = plan.length
            + plan.countP (fun e => upgrade_triggers doc.layouts e) ∧
    ∀ (inc : Bool) (raw : List PlanEntry),
      (plan_slides_normalize inc raw).length = min raw.length 30 := by
  constructor
  · show (build_slides (purge_all_existing_slides doc).layouts _ 0 plan).length = _
    rw [purge_preserves_layouts doc]
    exact build_slides_length doc.layouts _ 0 plan
  · intro inc raw
    cases inc with
    | true =>
      show (List.map normalize_hint
        (List.map ensure_notes_key (raw.take 30))).length = _
      simp only [List.length_map, List.length_take]
      exact Nat.min_comm 30 raw.length
    | false =>
      show (List.map normalize_hint (raw.take 30)).length = _
      simp only [List.length_map, List.length_take]
      exact Nat.min_comm 30 raw.length

/-- Witness for the amended C1: on the two-picture template with a
body-capable layout, five plan entries produce exactly five slides (no
upgrades), and a 31-entry raw plan is normalized to 30 entries. -/
theorem c1_amended_witness :
    (build_presentation id docTwoPics planFive).outSlides.length
        = planFive.length
            + planFive.countP (fun e => upgrade_triggers docTwoPics.layouts e) ∧
    (plan_slides_normalize false
        (List.replicate 31 (⟨some "S", none, none, none⟩ : PlanEntry))).length
      = min (List.replicate 31 (⟨some "S", none, none, none⟩ : PlanEntry)).length
          30 :=
  ⟨(c1_amended_slide_count id docTwoPics planFive (by decide)).1,
   (c1_amended_slide_count id docTwoPics planFive (by decide)).2 false
     (List.replicate 31 ⟨some "S", none, none, none⟩)⟩

theorem build_entry_getLast (layouts : List Layout)
    (pool : List HarvestedImage) (idx : Nat) (e : PlanEntry) :
    ∃ li, (build_entry layouts pool idx e).getLast?
      = some (render_slide pool idx e li) := by
  simp only [build_entry]
  split
  · cases hfd : findFirst layout_has_body layouts with
    | some j => exact ⟨j, rfl⟩
    | none =>
      exact ⟨find_layout_index layouts (e.layout_hint.getD "title_and_content"),
        rfl⟩
  · exact ⟨find_layout_index layouts (e.layout_hint.getD "title_and_content"),
      rfl⟩

theorem set_bullets_paragraphs (tf : TextFrame) (bs : List String) :
    (set_bullets tf bs).paragraphs =
      if bs.take 12 = [] then [emptyParagraph]
      else (bs.take 12).map bulletParagraph := by
  by_cases h : bs.take 12 = []
  · simp [set_bullets, TextFrame.clear, h]
  · simp [set_bullets, h]
    intro hbs
    exact absurd (by simp [hbs]) h

theorem countP_bulletParagraph (bs : List String) :
    ((bs.map bulletParagraph).countP fun p => !p.runs.isEmpty) = bs.length := by
  induction bs with
  | nil => rfl
  | cons b t ih => simp [List.countP_cons, bulletParagraph, ih]

theorem texts_bulletParagraph (bs : List String) :
    (((bs.map bulletParagraph).filter fun p => !p.runs.isEmpty).map
      fun p => p.runs.map Run.text) = bs.map fun b => [b] := by
  induction bs with
  | nil => rfl
  | cons b t ih => simp [bulletParagraph, ih]

theorem set_bullets_spec (tf : TextFrame) (bs : List String) :
    ((set_bullets tf bs).paragraphs.countP fun p => !p.runs.isEmpty)
        = min bs.length 12 ∧
    (((set_bullets tf bs).paragraphs.filter fun p => !p.runs.isEmpty).map
        fun p => p.runs.map Run.text) = (bs.take 12).map (fun b => [b]) ∧
    (∀ p ∈ (set_bullets tf bs).paragraphs, p.level = 0) ∧
    (set_bullets tf bs).wordWrap = some true := by
  rw [set_bullets_paragraphs]
  by_cases h : bs.take 12 = []
  · have hbs : bs = [] := by
      rcases List.take_eq_nil_iff.mp h with h12 | hnil
      · cases h12
      · exact hnil
    subst hbs
    refine ⟨rfl, rfl, ?_, rfl⟩
    intro p hp
    simp at hp
    subst hp
    rfl
  · rw [if_neg h]
    refine ⟨?_, texts_bulletParagraph (bs.take 12), ?_, rfl⟩
    · rw [countP_bulletParagraph, List.length_take]
      omega
    · intro p hp
      rcases List.mem_map.mp hp with ⟨b, _, hb⟩
      rw [← hb]
      rfl

/-- Claim C3: For every plan entry, the title text written to the slide is
the entry's title truncated to 200 characters; the number of non-empty
bullet paragraphs written is `min(len(bullets), 12)`, the bullets written
are exactly the first 12, each one paragraph at level 0, with word wrap
enabled on the frame. -/
theorem c3_title_truncation_and_bullet_count (layouts : List Layout)
    (pool : List HarvestedImage) (idx : Nat) (e : PlanEntry)
    (_hL : layouts ≠ []) :
    ∃ w, (build_entry layouts pool idx e).getLast? = some w ∧
      ∃ tf bf, w.titleFrame = some tf ∧ w.bodyFrame = some bf ∧
        tf.paragraphs.map (fun p => p.runs.map Run.text)
          = [[strTake (e.title.getD "") 200]] ∧
        (tf.paragraphs.map fun p => p.runs.length) = [1] ∧
        (bf.paragraphs.countP fun p => !p.runs.isEmpty)
          = min (e.bullets.getD []).length 12 ∧
        ((bf.paragraphs.filter fun p => !p.runs.isEmpty).map
            fun p => p.runs.map Run.text)
          = ((e.bullets.getD []).take 12).map (fun b => [b]) ∧
        (∀ p ∈ bf.paragraphs, p.level = 0) ∧
        bf.wordWrap = some true := by
  obtain ⟨li, hlast⟩ := build_entry_getLast layouts pool idx e
  obtain ⟨hcount, htexts, hlevel, hwrap⟩ :=
    set_bullets_spec emptyFrame ((e.bullets.getD []).take 12)
  refine ⟨_, hlast,
    set_text emptyFrame (strTake (e.title.getD "") 200),
    set_bullets emptyFrame ((e.bullets.getD []).take 12),
    rfl, rfl, rfl, rfl, ?_, ?_, hlevel, hwrap⟩
  · rw [hcount, List.length_take]
    omega
  · rw [htexts, List.take_take]
    simp

/-- Witness for C3: a 250-character title is written truncated to its
first 200 characters, and 14 bullets are written as 12 paragraphs. -/
theorem c3_witness :
    ∃ w, (build_entry [⟨"Title and Content", [bodyPh]⟩] [] 0
        ⟨some (String.mk (List.replicate 250 't')),
         some (List.replicate 14 "b"), none, none⟩).getLast? = some w ∧
      ∃ tf bf, w.titleFrame = some tf ∧ w.bodyFrame = some bf ∧
        tf.paragraphs.map (fun p => p.runs.map Run.text)
          = [[strTake ((some (String.mk (List.replicate 250 't'))).getD "")
              200]] ∧
        (tf.paragraphs.map fun p => p.runs.length) = [1] ∧
        (bf.paragraphs.countP fun p => !p.runs.isEmpty)
          = min ((some (List.replicate 14 "b")).getD []).length 12 ∧
        ((bf.paragraphs.filter fun p => !p.runs.isEmpty).map
            fun p => p.runs.map Run.text)
          = (((some (List.replicate 14 "b")).getD []).take 12).map
              (fun b => [b]) ∧
        (∀ p ∈ bf.paragraphs, p.level = 0) ∧
        bf.wordWrap = some true :=
  c3_title_truncation_and_bullet_count [⟨"Title and Content", [bodyPh]⟩] [] 0
    ⟨some (String.mk (List.replicate 250 't')),
     some (List.replicate 14 "b"), none, none⟩ (by decide)

theorem length_filterMap_pictureData (shapes : List Shape) :
    (shapes.filterMap pictureData).length = shapes.countP isPictureShape := by
  induction shapes with
  | nil => rfl
  | cons s t ih =>
    cases s <;>
      simp [pictureData, isPictureShape, List.countP_cons, ih]

theorem collect_template_images_length (slides : List TemplateSlide) :
    (collect_template_images slides).length
      = (slides.map fun s => s.shapes.countP isPictureShape).sum := by
  induction slides with
  | nil => rfl
  | cons s t ih =>
    show (s.shapes.filterMap pictureData ++ collect_template_images t).length
      = _
    rw [List.length_append, length_filterMap_pictureData, ih]
    rfl

theorem render_slide_image_mem {pool : List HarvestedImage} {idx : Nat}
    {e : PlanEntry} {li : Nat} {img : HarvestedImage}
    (h : (render_slide pool idx e li).image = some img) : img ∈ pool := by
  simp only [render_slide] at h
  split at h
  · exact List.get?_mem h
  · cases h

theorem build_entry_image_mem {layouts : List Layout}
    {pool : List HarvestedImage} {idx : Nat} {e : PlanEntry} {s : OutputSlide}
    {img : HarvestedImage} (hs : s ∈ build_entry layouts pool idx e)
    (himg : s.image = some img) : img ∈ pool := by
  simp only [build_entry] at hs
  split at hs
  · cases hfd : findFirst layout_has_body layouts with
    | some j =>
      rw [hfd] at hs
      rcases List.mem_cons.mp hs with hghost | hrest
      · subst hghost
        cases himg
      · rcases List.mem_singleton.mp hrest with hwr
        subst hwr
        exact render_slide_image_mem himg
    | none =>
      rw [hfd] at hs
      rcases List.mem_singleton.mp hs with hwr
      subst hwr
      exact render_slide_image_mem himg
  · rcases List.mem_singleton.mp hs with hwr
    subst hwr
    exact render_slide_image_mem himg

theorem build_slides_image_mem (layouts : List Layout)
    (pool : List HarvestedImage) :
    ∀ (idx : Nat) (plan : List PlanEntry) (s : OutputSlide)
      (img : HarvestedImage), s ∈ build_slides layouts pool idx plan →
      s.image = some img → img ∈ pool := by
  intro idx plan
  induction plan generalizing idx with
  | nil =>
    intro s img hs _
    cases hs
  | cons e rest ih =>
    intro s img hs himg
    rcases List.mem_append.mp hs with hleft | hright
    · exact build_entry_image_mem hleft himg
    · exact ih (idx + 1) s img hright himg

/-- Claim C4: Image harvesting runs before the slide purge (harvesting the
already-purged document collects nothing, and every image placed by the
build comes from the pre-purge collection), and although the harvested
order is an arbitrary permutation (the shuffle), the harvested count
always equals the total number of picture shapes across all slides
originally present in the template. -/
theorem c4_harvest_count_and_order
    (shuffle : List HarvestedImage → List HarvestedImage)
    (hs : ∀ l, (shuffle l).Perm l) (doc : Document) :
    (shuffle (collect_template_images doc.slides)).length
        = (doc.slides.map fun s => s.shapes.countP isPictureShape).sum ∧
    collect_template_images (purge_all_existing_slides doc).slides = [] ∧
    ∀ (plan : List PlanEntry) (s : OutputSlide) (img : HarvestedImage),
      s ∈ (build_presentation shuffle doc plan).outSlides →
      s.image = some img → img ∈ collect_template_images doc.slides := by
  refine ⟨?_, ?_, ?_⟩
  · rw [(hs (collect_template_images doc.slides)).length_eq,
      collect_template_images_length]
  · rw [purge_slides_eq_nil]
    rfl
  · intro plan s img hmem himg
    have hpool : img ∈ shuffle (collect_template_images doc.slides) :=
      build_slides_image_mem (purge_all_existing_slides doc).layouts
        (shuffle (collect_template_images doc.slides)) 0 plan s img hmem himg
    exact (hs (collect_template_images doc.slides)).mem_iff.mp hpool

/-- Witness for C4: on the two-picture template, the harvested pool under
the identity shuffle has exactly as many images as there are picture
shapes on the original slides, namely 2. -/
theorem c4_witness :
    (id (collect_template_images docTwoPics.slides)).length
        = (docTwoPics.slides.map fun s => s.shapes.countP isPictureShape).sum
    ∧ (docTwoPics.slides.map fun s => s.shapes.countP isPictureShape).sum
        = 2 :=
  ⟨(c4_harvest_count_and_order id (fun l => List.Perm.refl l) docTwoPics).1,
   by decide⟩

theorem render_slide_image_eq (pool : List HarvestedImage) (idx : Nat)
    (e : PlanEntry) (li : Nat) :
    (render_slide pool idx e li).image =
      if pool ≠ [] ∧ (idx % 3 = 0 ∨ (e.bullets.getD []).length ≤ 2) then
        pool.get? (idx % pool.length)
      else none := by
  simp only [render_slide]
  split
  · next hcond =>
    simp only [Bool.and_eq_true, Bool.or_eq_true, Bool.not_eq_true',
      List.isEmpty_eq_false, beq_iff_eq, decide_eq_true_eq,
      List.length_take] at hcond
    rw [if_pos ⟨hcond.1, by omega⟩]
  · next hcond =>
    have hneg : ¬(pool ≠ [] ∧
        (idx % 3 = 0 ∨ (e.bullets.getD []).length ≤ 2)) := by
      rintro ⟨h1, h2⟩
      apply hcond
      simp only [Bool.and_eq_true, Bool.or_eq_true, Bool.not_eq_true',
        List.isEmpty_eq_false, beq_iff_eq, decide_eq_true_eq,
        List.length_take]
      exact ⟨h1, by omega⟩
    rw [if_neg hneg]

/-- Claim C6: For every plan entry at index `idx`: an image is placed on the
written slide iff at least one image was harvested and
(`idx mod 3 == 0` or the entry has at most 2 bullets); when placed, the
image is `harvestedImages[idx mod len(harvestedImages)]`; when zero images
were harvested no slide receives an image; and with 2 harvested images and
5 consecutive eligible slides the used images follow the index pattern
`[0, 1, 0, 1, 0]`. -/
theorem c6_image_placement (layouts : List Layout)
    (pool : List HarvestedImage) (idx : Nat) (e : PlanEntry)
    (_hL : layouts ≠ []) :
    ∃ w, (build_entry layouts pool idx e).getLast? = some w ∧
      (w.image.isSome = true ↔
        pool ≠ [] ∧ (idx % 3 = 0 ∨ (e.bullets.getD []).length ≤ 2)) ∧
      (∀ img, w.image = some img →
        pool.get? (idx % pool.length) = some img) ∧
      (pool = [] → ∀ s ∈ build_entry layouts pool idx e, s.image = none) ∧
      ((build_presentation id docTwoPics planFive).outSlides.map
          fun s => s.image)
        = [some imgA, some imgB, some imgA, some imgB, some imgA] := by
  obtain ⟨li, hlast⟩ := build_entry_getLast layouts pool idx e
  refine ⟨_, hlast, ?_, ?_, ?_, by decide⟩
  · rw [render_slide_image_eq]
    by_cases hc : pool ≠ [] ∧ (idx % 3 = 0 ∨ (e.bullets.getD []).length ≤ 2)
    · rw [if_pos hc]
      constructor
      · intro _
        exact hc
      · intro _
        have hlen : 0 < pool.length := List.length_pos.mpr hc.1
        have hlt : idx % pool.length < pool.length := Nat.mod_lt idx hlen
        cases hg : pool.get? (idx % pool.length) with
        | none =>
          have := List.get?_eq_none.mp hg
          omega
        | some x => rfl
    · rw [if_neg hc]
      simp [hc]
  · intro img himg
    rw [render_slide_image_eq] at himg
    split at himg
    · exact himg
    · cases himg
  · intro hpool s hs
    cases himg : s.image with
    | none => rfl
    | some img =>
      subst hpool
      exact absurd (build_entry_image_mem hs himg) (List.not_mem_nil img)

/-- Witness for C6: with pool `[imgA, imgB]` and a bullet-less entry at
index 0, the written slide carries `imgA` (= pool index 0 mod 2). -/
theorem c6_witness :
    ∃ w, (build_entry [⟨"Title and Content", [bodyPh]⟩] [imgA, imgB] 0
        ⟨some "S", none, none, none⟩).getLast? = some w ∧
      w.image = some imgA := by
  obtain ⟨w, hlast, hiff, hget, _, _⟩ :=
    c6_image_placement [⟨"Title and Content", [bodyPh]⟩] [imgA, imgB] 0
      ⟨some "S", none, none, none⟩ (by decide)
  refine ⟨w, hlast, ?_⟩
  have hsome : w.image.isSome = true :=
    hiff.mpr ⟨by decide, Or.inr (by decide)⟩
  cases himg : w.image with
  | none =>
    rw [himg] at hsome
    cases hsome
  | some img =>
    have hg := hget img himg
    have : some imgA = some img := by simpa using hg
    cases this
    rfl

set_option maxRecDepth 4000 in
/-- Claim C7: Writing title text first clears all pre-existing
runs/paragraphs of the target frame (the result is independent of the
frame's prior content) and adds exactly one run carrying the text; the
run's font size is overridden (to 20 pt) only when the text exceeds 90
characters, otherwise it is left to the theme (`none`); a bullet run's
font size is overridden (to 16 pt) only when that bullet exceeds 100
characters — a 150-character bullet is shrunk, a 50-character bullet keeps
the template default. -/
theorem c7_run_styling :
    (∀ tf tf' s, (set_text tf s).paragraphs = (set_text tf' s).paragraphs) ∧
    (∀ tf s, (set_text tf s).paragraphs
        = [⟨[⟨s, if s.length > 90 then some 20 else none⟩], 0⟩]) ∧
    (∀ tf bullets p, p ∈ (set_bullets tf bullets).paragraphs →
        ∀ r ∈ p.runs,
          r.fontSizePt = if r.text.length > 100 then some 16 else none) ∧
    ((set_bullets emptyFrame [bullet150]).paragraphs.map
        fun p => p.runs.map Run.fontSizePt) = [[some 16]] ∧
    ((set_bullets emptyFrame [bullet50]).paragraphs.map
        fun p => p.runs.map Run.fontSizePt) = [[none]] := by
  refine ⟨fun tf tf' s => rfl, fun tf s => rfl, ?_, by decide, by decide⟩
  intro tf bullets p hp r hr
  rw [set_bullets_paragraphs] at hp
  by_cases h : bullets.take 12 = []
  · rw [if_pos h] at hp
    rcases List.mem_singleton.mp hp with hpe
    subst hpe
    cases hr
  · rw [if_neg h] at hp
    rcases List.mem_map.mp hp with ⟨b, _, hb⟩
    subst hb
    rcases List.mem_singleton.mp hr with hre
    subst hre
    rfl

set_option maxRecDepth 4000 in
/-- Witness for C7: the run written for the 150-character bullet follows
the shrink rule at its own concrete length. -/
theorem c7_witness :
    (⟨bullet150, some 16⟩ : Run).fontSizePt
      = if (⟨bullet150, some 16⟩ : Run).text.length > 100 then some 16
        else none :=
  c7_run_styling.2.2.1 emptyFrame [bullet150] (bulletParagraph bullet150)
    (by decide) ⟨bullet150, some 16⟩ (by decide)

theorem build_entry_exc_ok {env : BuildEnv} {layouts : List Layout}
    {pool : List HarvestedImage} {idx : Nat} {e : PlanEntry}
    (hok : env.addSlideFail idx = false) :
    build_entry_exc env layouts pool idx e
      = Except.ok (build_entry_fails (env.slideFails idx) layouts pool idx e)
    := by
  unfold build_entry_exc
  rw [hok]
  rfl

theorem build_slides_exc_ok (env : BuildEnv) (layouts : List Layout)
    (pool : List HarvestedImage) (hok : ∀ i, env.addSlideFail i = false) :
    ∀ (idx : Nat) (plan : List PlanEntry),
      ∃ ss, build_slides_exc env layouts pool idx plan = Except.ok ss := by
  intro idx plan
  induction plan generalizing idx with
  | nil => exact ⟨[], rfl⟩
  | cons e rest ih =>
    obtain ⟨ss, hss⟩ := ih (idx + 1)
    refine ⟨build_entry_fails (env.slideFails idx) layouts pool idx e ++ ss,
      ?_⟩
    show (match build_entry_exc env layouts pool idx e with
      | Except.error err => Except.error err
      | Except.ok ss =>
        match build_slides_exc env layouts pool (idx + 1) rest with
        | Except.error err => Except.error err
        | Except.ok rest' => Except.ok (ss ++ rest')) = _
    rw [build_entry_exc_ok (hok idx), hss]

theorem build_slides_exc_error (env : BuildEnv) (layouts : List Layout)
    (pool : List HarvestedImage) :
    ∀ (idx : Nat) (plan : List PlanEntry),
      (∃ i, i < plan.length ∧ env.addSlideFail (idx + i) = true) →
      ∃ err, build_slides_exc env layouts pool idx plan
        = Except.error err := by
  intro idx plan
  induction plan generalizing idx with
  | nil =>
    rintro ⟨i, hi, _⟩
    cases hi
  | cons e rest ih =>
    rintro ⟨i, hi, hfail⟩
    cases hfa : env.addSlideFail idx with
    | true =>
      refine ⟨.addSlideError idx, ?_⟩
      show (match build_entry_exc env layouts pool idx e with
        | Except.error err => Except.error err
        | Except.ok ss =>
          match build_slides_exc env layouts pool (idx + 1) rest with
          | Except.error err => Except.error err
          | Except.ok rest' => Except.ok (ss ++ rest')) = _
      unfold build_entry_exc
      rw [hfa]
      rfl
    | false =>
      have hipos : 1 ≤ i := by
        rcases Nat.eq_zero_or_pos i with h0 | h1
        · subst h0
          rw [Nat.add_zero] at hfail
          rw [hfa] at hfail
          cases hfail
        · exact h1
      have hrest : ∃ i', i' < rest.length ∧
          env.addSlideFail (idx + 1 + i') = true := by
        refine ⟨i - 1, by simp at hi; omega, ?_⟩
        have harith : idx + 1 + (i - 1) = idx + i := by omega
        rw [harith]
        exact hfail
      obtain ⟨err, herr⟩ := ih (idx + 1) hrest
      refine ⟨err, ?_⟩
      show (match build_entry_exc env layouts pool idx e with
        | Except.error err => Except.error err
        | Except.ok ss =>
          match build_slides_exc env layouts pool (idx + 1) rest with
          | Except.error err => Except.error err
          | Except.ok rest' => Except.ok (ss ++ rest')) = _
      rw [build_entry_exc_ok hfa, herr]

/-- Claim C8: Any exception during per-slide writing (title write, bullet
write, notes attach, image placement) is caught inside the helpers'
`try/except` blocks, so the build still returns a document for every
combination of such failures; an exception while creating a slide from a
layout or while serializing the final document is not suppressed and
propagates out of `build_presentation` (the code defines no wrapper class,
so the raw exception — the spec's fatal `BuildError` category — reaches
the caller unmodified). -/
theorem c8_failure_semantics :
    (∀ (env : BuildEnv) shuffle doc plan,
       (∀ i, env.addSlideFail i = false) → env.saveFail = false →
       ∃ d, build_presentation_exc env shuffle doc plan = Except.ok d) ∧
    (∀ (env : BuildEnv) shuffle doc plan,
       (∀ i, env.addSlideFail i = false) → env.saveFail = true →
       build_presentation_exc env shuffle doc plan
         = Except.error PptxError.saveError) ∧
    (∀ (env : BuildEnv) shuffle doc plan,
       (∃ i, i < plan.length ∧ env.addSlideFail i = true) →
       ∃ err, build_presentation_exc env shuffle doc plan
         = Except.error err) := by
  refine ⟨?_, ?_, ?_⟩
  · intro env shuffle doc plan hok hsave
    obtain ⟨ss, hss⟩ := build_slides_exc_ok env
      (purge_all_existing_slides doc).layouts
      (shuffle (collect_template_images doc.slides)) hok 0 plan
    refine ⟨⟨(purge_all_existing_slides doc).layouts,
      (purge_all_existing_slides doc).masters,
      (purge_all_existing_slides doc).theme, ss⟩, ?_⟩
    simp only [build_presentation_exc]
    rw [hss, hsave]
    rfl
  · intro env shuffle doc plan hok hsave
    obtain ⟨ss, hss⟩ := build_slides_exc_ok env
      (purge_all_existing_slides doc).layouts
      (shuffle (collect_template_images doc.slides)) hok 0 plan
    simp only [build_presentation_exc]
    rw [hss, hsave]
    rfl
  · intro env shuffle doc plan hfail
    obtain ⟨err, herr⟩ := build_slides_exc_error env
      (purge_all_existing_slides doc).layouts
      (shuffle (collect_template_images doc.slides)) 0 plan
      (by
        rcases hfail with ⟨i, hi, hf⟩
        exact ⟨i, hi, by rw [Nat.zero_add]; exact hf⟩)
    refine ⟨err, ?_⟩
    simp only [build_presentation_exc]
    rw [herr]

/-- Witness for C8: with arbitrary per-slide write failures on every slide
but no `add_slide` or `save` fault, the build of the five-entry plan still
returns a document. -/
theorem c8_witness :
    ∃ d, build_presentation_exc
        ⟨fun _ => ⟨true, true, true, true⟩, fun _ => false, false⟩
        id docTwoPics planFive = Except.ok d :=
  c8_failure_semantics.1
    ⟨fun _ => ⟨true, true, true, true⟩, fun _ => false, false⟩
    id docTwoPics planFive (fun _ => rfl) rfl

/-- Claim C9 counterexample: On the `layoutsAlpha` template, an entry whose
`layout_hint` key holds the empty string is NOT processed as if the hint
were `title_and_content`: the empty hint reaches `_find_layout_index`
unchanged, falls into the generic default preference list, matches the
"Title Only" layout by name (picking a body-less layout and triggering the
upgrade path, two slides), while `title_and_content` matches no name and
falls through to the body tier (one slide). -/
theorem c9_counterexample :
    build_entry layoutsAlpha [] 0 entryEmptyHint
      ≠ build_entry layoutsAlpha [] 0 entryDefaultHint := by
  decide

/-- Claim C9 amended: An absent `layout_hint` key is processed exactly as if
the hint were `title_and_content` (the `dict.get` default); an
empty-string hint however reaches `_find_layout_index` unchanged, where
the unknown-hint fallback uses the generic preference list
`["Title and Content", "Title Only"]` instead of the four
`title_and_content` patterns. Entries produced by `plan_slides_via_llm`
never carry an empty hint: its normalization rewrites every falsy hint to
`title_and_content`. -/
theorem c9_amended_hint_default :
    (∀ (layouts : List Layout) (pool : List HarvestedImage) (idx : Nat)
       (e : PlanEntry), e.layout_hint = none →
       build_entry layouts pool idx e
         = build_entry layouts pool idx
             { e with layout_hint := some "title_and_content" }) ∧
    prefsFor "" = ["Title and Content", "Title Only"] ∧
    (∀ (inc : Bool) (slides : List PlanEntry) (e : PlanEntry),
       e ∈ plan_slides_normalize inc slides →
       ∃ h, e.layout_hint = some h ∧ h ≠ "") := by
  refine ⟨?_, rfl, ?_⟩
  · intro layouts pool idx e he
    simp [build_entry, render_slide, he]
  · intro inc slides e hmem
    have hmem' : e ∈ (if inc then (slides.take 30).map ensure_notes_key
        else slides.take 30).map normalize_hint := hmem
    rcases List.mem_map.mp hmem' with ⟨e', _, he'⟩
    subst he'
    unfold normalize_hint
    by_cases hc : e'.layout_hint.getD "" = ""
    · rw [if_pos hc]
      exact ⟨"title_and_content", rfl, by decide⟩
    · rw [if_neg hc]
      cases hl : e'.layout_hint with
      | none =>
        rw [hl] at hc
        exact absurd rfl hc
      | some h =>
        refine ⟨h, rfl, ?_⟩
        intro hempty
        apply hc
        rw [hl, hempty]
        rfl

/-- Witness for the amended C9: an entry with no `layout_hint` key builds
exactly like the same entry with an explicit `title_and_content` hint. -/
theorem c9_amended_witness :
    build_entry layoutsAlpha [] 0
        (⟨some "T", none, none, none⟩ : PlanEntry)
      = build_entry layoutsAlpha [] 0
          ⟨some "T", none, some "title_and_content", none⟩ :=
  c9_amended_hint_default.1 layoutsAlpha [] 0 ⟨some "T", none, none, none⟩
    rfl

/-- Claim C10: `build_presentation` is total over entries with missing or
`None` optional fields (the embedding of the per-entry processing is a
total function): an absent/`None` title is written as the empty string, an
absent/`None` bullet list yields zero bullet paragraphs, and an absent or
empty notes value results in no notes being written. -/
theorem c10_missing_fields_defaults (layouts : List Layout)
    (pool : List HarvestedImage) (idx : Nat) (e : PlanEntry)
    (_hL : layouts ≠ []) (ht : e.title = none) (hb : e.bullets = none)
    (hn : e.notes = none ∨ e.notes = some "") :
    ∃ w, (build_entry layouts pool idx e).getLast? = some w ∧
      (∃ tf, w.titleFrame = some tf ∧
        tf.paragraphs.map (fun p => p.runs.map Run.text) = [[""]]) ∧
      (∃ bf, w.bodyFrame = some bf ∧
        (bf.paragraphs.countP fun p => !p.runs.isEmpty) = 0) ∧
      w.notesText = none := by
  obtain ⟨li, hlast⟩ := build_entry_getLast layouts pool idx e
  refine ⟨_, hlast, ⟨_, rfl, ?_⟩, ⟨_, rfl, ?_⟩, ?_⟩
  · rw [ht]
    rfl
  · rw [hb]
    rfl
  · show (if e.notes.getD "" = "" then none else some (e.notes.getD ""))
      = none
    rcases hn with h | h <;> rw [h] <;> rfl

/-- Witness for C10: the all-defaults entry `{}` builds into a slide with
an empty title run, no bullet paragraphs and no notes. -/
theorem c10_witness :
    ∃ w, (build_entry [⟨"Title and Content", [bodyPh]⟩] [] 0
        (⟨none, none, none, none⟩ : PlanEntry)).getLast? = some w ∧
      (∃ tf, w.titleFrame = some tf ∧
        tf.paragraphs.map (fun p => p.runs.map Run.text) = [[""]]) ∧
      (∃ bf, w.bodyFrame = some bf ∧
        (bf.paragraphs.countP fun p => !p.runs.isEmpty) = 0) ∧
      w.notesText = none :=
  c10_missing_fields_defaults [⟨"Title and Content", [bodyPh]⟩] [] 0
    ⟨none, none, none, none⟩ (by decide) rfl rfl (Or.inl rfl)

end PptBuilder
